import Mathlib

/-!
Verification of the `MainOrchestrator` request pipeline of the
Finance_assistance_project repository
(`src/orchestrator/main_orchestrator.py`), shallowly embedded in Lean.

Collaborator HTTP calls are modelled by a `CallResult` value recorded in an
environment `Env`: either a raised exception (network/timeout/file errors,
carrying the exception message) or a response with its HTTP status code and
already-parsed JSON body.  JSON dictionaries whose fields may be absent are
modelled with `Option` fields; Python `float` confidences are modelled as `ℚ`.
Python code that may raise is modelled in `Except String`, the string being
the exception message; the top-level `try/except` of `process_request` is the
`match` in `process_request`.
-/

namespace FinanceAssistant

/-- Outcome of one outbound HTTP call: a raised exception carrying its message,
or a response with an HTTP status code and a parsed JSON body. -/
inductive CallResult (α : Type) where
  | exn (msg : String)
  | ok (status : Nat) (body : α)
deriving Repr, DecidableEq

/-- Request model mirroring the pydantic `OrchestratorRequest`: `query` is
required, `mode` defaults to `"text"`, `audio_file` defaults to `None`. -/
structure OrchestratorRequest where
  query : String
  mode : String := "text"
  audio_file : Option String := none
deriving Repr, DecidableEq

/-- Response model mirroring the pydantic `OrchestratorResponse`;
`audio_file` defaults to `None`. -/
structure OrchestratorResponse where
  response : String
  confidence : ℚ
  audio_file : Option String := none
  status : String
deriving Repr, DecidableEq

/-- A market-data record; the orchestrator passes these through opaquely, so
the body is modelled as an uninterpreted field list. -/
structure MarketItem where
  fields : List (String × String)
deriving Repr, DecidableEq

/-- A scraped news item; `title` and `source` are read with
`news.get(key, "")`, so absent keys are `none`. -/
structure NewsItem where
  title : Option String := none
  source : Option String := none
deriving Repr, DecidableEq

/-- A scraped earnings item; fields are read with `.get(key, default)`, so
absent keys are `none`. -/
structure EarningsItem where
  company : Option String := none
  estimate : Option Int := none
  actual : Option Int := none
deriving Repr, DecidableEq

/-- A context chunk as posted to the synthesis collaborator: a text and a
source tag. -/
structure Chunk where
  text : String
  source : String
deriving Repr, DecidableEq

/-- The JSON body returned by the synthesis collaborator (and the dictionaries
substituted on failure): either key may be absent in a 200 body. -/
structure SynthJson where
  response : Option String := none
  confidence : Option ℚ := none
deriving Repr, DecidableEq

/-- The recorded outcomes of every outbound call one run of `process_request`
can make, in pipeline order.  `ttsResponse` is the text-to-speech call on the
synthesis text (step 6 of the source), `ttsFallback` the one on the fallback
message (step 7). -/
structure Env where
  stt : CallResult String
  market : CallResult (List MarketItem)
  news : CallResult (List NewsItem)
  earnings : CallResult (List EarningsItem)
  retriever : CallResult (List Chunk)
  synth : CallResult SynthJson
  ttsResponse : CallResult String
  ttsFallback : CallResult String
deriving Repr, DecidableEq

/-- Python truthiness of the optional `audio_file` string: `None` and the
empty string are falsy. -/
def truthyOptStr : Option String → Bool
  | none => false
  | some s => !s.isEmpty

/-- The `news_keywords` list of `_is_news_query`. -/
def news_keywords : List String :=
  ["news", "headlines", "latest", "breaking", "announcements", "reports"]

/-- The `earnings_keywords` list of `_is_earnings_query`. -/
def earnings_keywords : List String :=
  ["earnings", "quarterly", "results", "profit", "revenue", "eps"]

/-- `query.lower()` as a character list (ASCII lowering, as in the queries at
hand). -/
def lowerChars (q : String) : List Char :=
  q.toList.map Char.toLower

/-- `_is_news_query`: some news keyword occurs in `query.lower()` as a
substring. -/
def is_news_query (q : String) : Bool :=
  news_keywords.any (fun k => decide (k.toList <:+: lowerChars q))

/-- `_is_earnings_query`: some earnings keyword occurs in `query.lower()` as a
substring. -/
def is_earnings_query (q : String) : Bool :=
  earnings_keywords.any (fun k => decide (k.toList <:+: lowerChars q))

/-- `process_voice_input`: the body has no `try/except`, so a raised exception
propagates (`Except.error`); a 200 response yields its `text` field; any other
status yields the literal substitution text. -/
def process_voice_input (r : CallResult String) : Except String String :=
  match r with
  | .exn m => .error m
  | .ok status t => if status = 200 then .ok t else .ok "Error processing voice input"

/-- `get_market_data`: exceptions and non-200 statuses degrade to `[]`. -/
def get_market_data (r : CallResult (List MarketItem)) : List MarketItem :=
  match r with
  | .exn _ => []
  | .ok status d => if status = 200 then d else []

/-- `get_scraped_news`: exceptions and non-200 statuses degrade to `[]`. -/
def get_scraped_news (r : CallResult (List NewsItem)) : List NewsItem :=
  match r with
  | .exn _ => []
  | .ok status d => if status = 200 then d else []

/-- `get_scraped_earnings`: exceptions and non-200 statuses degrade to `[]`. -/
def get_scraped_earnings (r : CallResult (List EarningsItem)) : List EarningsItem :=
  match r with
  | .exn _ => []
  | .ok status d => if status = 200 then d else []

/-- `retrieve_context`: exceptions and non-200 statuses degrade to `[]`. -/
def retrieve_context (r : CallResult (List Chunk)) : List Chunk :=
  match r with
  | .exn _ => []
  | .ok status d => if status = 200 then d else []

/-- `generate_voice_response`: a 200 response yields its `audio_file` field;
exceptions and other statuses yield `None`. -/
def generate_voice_response (r : CallResult String) : Option String :=
  match r with
  | .exn _ => none
  | .ok status a => if status = 200 then some a else none

/-- The chunk built from one news item:
`"Latest News - {title}: {source}"` tagged `scraped_news`, with `.get`
defaults `""`. -/
def newsChunk (n : NewsItem) : Chunk :=
  { text := "Latest News - " ++ n.title.getD "" ++ ": " ++ n.source.getD ""
    source := "scraped_news" }

/-- The chunk built from one earnings item:
`"Earnings Update - {company}: Expected {estimate}, Actual {actual}"` tagged
`scraped_earnings`, with `.get` defaults `""` and `0`. -/
def earningsChunk (e : EarningsItem) : Chunk :=
  { text := "Earnings Update - " ++ e.company.getD "" ++ ": Expected "
      ++ toString (e.estimate.getD 0) ++ ", Actual " ++ toString (e.actual.getD 0)
    source := "scraped_earnings" }

/-- The `all_context` list built inside `synthesize_response` and posted to the
language agent: the retrieved chunks, then (when the news list is truthy) the
first 3 news items as chunks, then (when the earnings list is truthy) the
first 3 earnings items as chunks. -/
def fuse (context : List Chunk) (news_data : List NewsItem)
    (earnings_data : List EarningsItem) : List Chunk :=
  context ++
    ((if news_data.isEmpty then [] else (news_data.take 3).map newsChunk) ++
     (if earnings_data.isEmpty then [] else (earnings_data.take 3).map earningsChunk))

/-- `synthesize_response`, reduced to its observable result.  On a raised
exception the substituted dictionary is
`\x7bresponse: "Error connecting to language agent", confidence: 0.0\x7d`; on a
non-200 status it is
`\x7bresponse: "Error generating response", confidence: 0.0\x7d`; on a 200
status the parsed body is returned, with its `confidence` key overwritten by
`min(0.95, result.get("confidence", 0.5) + 0.1)` exactly when the news list or
the earnings list passed in is truthy (non-empty). -/
def synthesize_response (call : CallResult SynthJson)
    (news_data : List NewsItem) (earnings_data : List EarningsItem) : SynthJson :=
  match call with
  | .exn _ => { response := some "Error connecting to language agent", confidence := some 0 }
  | .ok status body =>
    if status = 200 then
      if !news_data.isEmpty || !earnings_data.isEmpty then
        { body with confidence := some (min (95/100 : ℚ) (body.confidence.getD (1/2) + 1/10)) }
      else body
    else { response := some "Error generating response", confidence := some 0 }

/-- Python dictionary subscript `d[key]` on an optional field: raises
`KeyError` (message `'key'`) when the key is absent. -/
def getKey {α : Type} (field : Option α) (keyErr : String) : Except String α :=
  match field with
  | some v => .ok v
  | none => .error keyErr

/-- The fixed clarification message of the confidence-floor fallback. -/
def fallback_msg : String :=
  "I need more specific information to provide an accurate response. Could you please clarify your question?"

/-- The `confidence_threshold` set in `__init__` (0.7). -/
def confidence_threshold : ℚ := 7/10

/-- Step 1 of `process_request`: `query_text` starts as `request.query` and is
replaced by the speech-to-text result when the mode is `"voice"` and the audio
handle is truthy. -/
def query_text_of (env : Env) (req : OrchestratorRequest) : Except String String :=
  if req.mode = "voice" ∧ truthyOptStr req.audio_file then process_voice_input env.stt
  else .ok req.query

/-- Step 3a of `process_request`: the news list, fetched only when the query
classifies as news-related. -/
def news_data_of (env : Env) (query_text : String) : List NewsItem :=
  if is_news_query query_text then get_scraped_news env.news else []

/-- Step 3b of `process_request`: the earnings list, fetched only when the
query classifies as earnings-related. -/
def earnings_data_of (env : Env) (query_text : String) : List EarningsItem :=
  if is_earnings_query query_text then get_scraped_earnings env.earnings else []

/-- The body of the `try` block of `process_request`: the sequential pipeline,
in `Except String` because the synthesis-result subscripts (and a voice-input
exception) can raise. -/
def process_request_core (env : Env) (req : OrchestratorRequest) :
    Except String OrchestratorResponse := do
  let query_text ← query_text_of env req
  let _market_data := get_market_data env.market
  let news_data := news_data_of env query_text
  let earnings_data := earnings_data_of env query_text
  let _context_chunks := retrieve_context env.retriever
  let synthesis_response := synthesize_response env.synth news_data earnings_data
  let response_text ← getKey synthesis_response.response "'response'"
  let confidence ← getKey synthesis_response.confidence "'confidence'"
  let audio_file := if req.mode = "voice" then generate_voice_response env.ttsResponse else none
  if confidence < confidence_threshold then
    let audio_file := if req.mode = "voice" then generate_voice_response env.ttsFallback else audio_file
    return { response := fallback_msg, confidence := confidence,
             audio_file := audio_file, status := "success" }
  else
    return { response := response_text, confidence := confidence,
             audio_file := audio_file, status := "success" }

/-- `process_request`: the `try/except Exception` wrapper around the pipeline;
an escaped exception becomes an error response embedding the exception
message, with confidence 0.0 and status `"error"`. -/
def process_request (env : Env) (req : OrchestratorRequest) : OrchestratorResponse :=
  match process_request_core env req with
  | .ok r => r
  | .error m =>
    { response := "Error processing request: " ++ m, confidence := 0,
      audio_file := none, status := "error" }

/-- A concrete environment builder used for evaluating the model at specific
inputs: market, earnings and retriever calls succeed with empty payloads and
both text-to-speech calls succeed. -/
def mkEnv (stt : CallResult String) (news : CallResult (List NewsItem))
    (synth : CallResult SynthJson) : Env :=
  { stt := stt
    market := .ok 200 []
    news := news
    earnings := .ok 200 []
    retriever := .ok 200 []
    synth := synth
    ttsResponse := .ok 200 "resp.mp3"
    ttsFallback := .ok 200 "fallback.mp3" }

/-! ## Helper lemmas -/

/-- Whenever the pipeline body runs to completion without an exception, the
response it builds carries status `"success"`. -/
theorem process_request_core_status (env : Env) (req : OrchestratorRequest)
    (r : OrchestratorResponse) (h : process_request_core env req = .ok r) :
    r.status = "success" := by
  unfold process_request_core at h
  simp only [bind, Except.bind, getKey] at h
  repeat' split at h
  all_goals try exact absurd h (by simp)
  all_goals simp only [pure, Except.pure, Except.ok.injEq] at h
  all_goals rw [← h]

/-- An exception raised while obtaining the query text escapes to the
top-level handler and becomes the error response. -/
theorem process_request_query_error (env : Env) (req : OrchestratorRequest)
    (m : String) (hq : query_text_of env req = .error m) :
    process_request env req =
      { response := "Error processing request: " ++ m, confidence := 0,
        audio_file := none, status := "error" } := by
  unfold process_request process_request_core
  simp [hq, bind, Except.bind]

/-- Characterisation of a run in which no exception escapes: the query text is
obtained, and the synthesis result has both keys present. -/
theorem process_request_success_shape (env : Env) (req : OrchestratorRequest)
    (qt rt : String) (c : ℚ)
    (hq : query_text_of env req = .ok qt)
    (hr : (synthesize_response env.synth (news_data_of env qt)
            (earnings_data_of env qt)).response = some rt)
    (hc : (synthesize_response env.synth (news_data_of env qt)
            (earnings_data_of env qt)).confidence = some c) :
    process_request env req =
      if c < confidence_threshold then
        { response := fallback_msg, confidence := c,
          audio_file := if req.mode = "voice"
            then generate_voice_response env.ttsFallback else none,
          status := "success" }
      else
        { response := rt, confidence := c,
          audio_file := if req.mode = "voice"
            then generate_voice_response env.ttsResponse else none,
          status := "success" } := by
  unfold process_request process_request_core
  simp only [hq, bind, Except.bind, hr, hc, getKey]
  by_cases hv : req.mode = "voice" <;> by_cases hlt : c < confidence_threshold <;>
    simp [hv, hlt, pure, Except.pure]

/-- C1: for every environment and request, `process_request` yields a value:
either a success response, or an error response with confidence 0 whose text
embeds the escaped exception's message after the fixed prefix; no failure
escapes to the caller. -/
theorem C1_pipeline_total (env : Env) (req : OrchestratorRequest) :
    (process_request env req).status = "success" ∨
    ((process_request env req).status = "error" ∧
      (process_request env req).confidence = 0 ∧
      ∃ m, (process_request env req).response = "Error processing request: " ++ m) := by
  unfold process_request
  cases h : process_request_core env req with
  | ok r => exact Or.inl (process_request_core_status env req r h)
  | error m => exact Or.inr ⟨rfl, rfl, m, rfl⟩

/-- On a 200 synthesis response with a truthy news or earnings list, the body
is returned with its confidence overwritten by the boosted value. -/
theorem synthesize_response_boost (body : SynthJson) (news : List NewsItem)
    (earnings : List EarningsItem) (h : news ≠ [] ∨ earnings ≠ []) :
    synthesize_response (.ok 200 body) news earnings
      = { body with
          confidence := some (min (95/100 : ℚ) (body.confidence.getD (1/2) + 1/10)) } := by
  rcases h with h | h
  · cases news with
    | nil => exact absurd rfl h
    | cons n ns => simp [synthesize_response]
  · cases earnings with
    | nil => exact absurd rfl h
    | cons e es => cases news <;> simp [synthesize_response]

/-- On a 200 synthesis response with both lists empty, the body is returned
unchanged. -/
theorem synthesize_response_nodata (body : SynthJson) :
    synthesize_response (.ok 200 body) [] [] = body := by
  simp [synthesize_response]

/-- C2 counterexample: with base confidence 1 (allowed, since b ranges over
[0, 1]) and both lists empty, the returned confidence is 1, which is not in
[0, 0.95]; the "always in [0, 0.95]" part of the claim fails. -/
theorem C2_counterexample :
    (synthesize_response (.ok 200 { response := some "ok", confidence := some 1 })
        [] []).confidence = some (1 : ℚ) ∧
    ¬ ((1 : ℚ) ≤ 95/100) := ⟨rfl, by norm_num⟩

/-- C2 (amended): on a successful synthesis call with base confidence b, the
returned confidence equals min(0.95, b + 0.10) when the news or earnings list
is non-empty and equals b unchanged otherwise; when the boost applies the
result lies in [0, 0.95] for b in [0, 1] (otherwise it equals b, so it lies
in [0, 1]); and the result is monotonically non-decreasing in b. -/
theorem C2_confidence_boost (news : List NewsItem) (earnings : List EarningsItem)
    (body body' : SynthJson) (b b' : ℚ)
    (hb : body.confidence = some b) (hb' : body'.confidence = some b') :
    ((news ≠ [] ∨ earnings ≠ []) →
      (synthesize_response (.ok 200 body) news earnings).confidence
        = some (min (95/100 : ℚ) (b + 1/10)) ∧
      (0 ≤ b → b ≤ 1 →
        0 ≤ min (95/100 : ℚ) (b + 1/10) ∧ min (95/100 : ℚ) (b + 1/10) ≤ 95/100)) ∧
    (news = [] → earnings = [] →
      (synthesize_response (.ok 200 body) news earnings).confidence = some b) ∧
    (b ≤ b' → ∀ c c' : ℚ,
      (synthesize_response (.ok 200 body) news earnings).confidence = some c →
      (synthesize_response (.ok 200 body') news earnings).confidence = some c' →
      c ≤ c') := by
  refine ⟨fun h => ?_, ?_, fun hbb c c' hcs hcs' => ?_⟩
  · rw [synthesize_response_boost body news earnings h]
    refine ⟨by simp [hb], fun h0 _ => ⟨le_min (by norm_num) (by linarith), min_le_left _ _⟩⟩
  · rintro rfl rfl
    rw [synthesize_response_nodata, hb]
  · by_cases hne : news ≠ [] ∨ earnings ≠ []
    · rw [synthesize_response_boost body news earnings hne] at hcs
      rw [synthesize_response_boost body' news earnings hne] at hcs'
      simp only [hb, Option.getD_some, Option.some.injEq] at hcs
      simp only [hb', Option.getD_some, Option.some.injEq] at hcs'
      rw [← hcs, ← hcs']
      exact min_le_min le_rfl (by linarith)
    · push_neg at hne
      rw [hne.1, hne.2, synthesize_response_nodata] at hcs hcs'
      rw [hb] at hcs; rw [hb'] at hcs'
      injection hcs with hcs; injection hcs' with hcs'
      rw [← hcs, ← hcs']; exact hbb

/-- C2 witness: base confidence 0.5 with one news item is boosted to 0.6. -/
theorem C2_witness :
    (synthesize_response (.ok 200 { response := some "ok", confidence := some (1/2) })
        [{ title := some "n" }] []).confidence = some (3/5 : ℚ) := by
  have h := (C2_confidence_boost [{ title := some "n" }] []
      { response := some "ok", confidence := some (1/2) }
      { response := some "ok", confidence := some (1/2) } (1/2) (1/2) rfl rfl).1
    (Or.inl (by simp))
  rw [h.1]
  congr 1
  rw [min_eq_right (by norm_num)]
  norm_num

/-- C3: when the final confidence c is strictly below 0.70 the returned text
is the fixed clarification string while the returned confidence field is c
unmodified; at exactly 0.70 the synthesis text is returned. -/
theorem C3_confidence_floor (env : Env) (req : OrchestratorRequest)
    (qt rt : String) (c : ℚ)
    (hq : query_text_of env req = .ok qt)
    (hr : (synthesize_response env.synth (news_data_of env qt)
            (earnings_data_of env qt)).response = some rt)
    (hc : (synthesize_response env.synth (news_data_of env qt)
            (earnings_data_of env qt)).confidence = some c) :
    (c < 7/10 → (process_request env req).response = fallback_msg) ∧
    (process_request env req).confidence = c ∧
    (c = 7/10 → (process_request env req).response = rt) := by
  rw [process_request_success_shape env req qt rt c hq hr hc]
  unfold confidence_threshold
  by_cases hlt : c < 7/10
  · rw [if_pos hlt]
    refine ⟨fun _ => rfl, rfl, fun hce => ?_⟩
    rw [hce] at hlt; norm_num at hlt
  · rw [if_neg hlt]
    exact ⟨fun hcl => absurd hcl hlt, rfl, fun _ => rfl⟩

/-- C3 witness: at confidence exactly 0.70 the synthesis text "Answer" is
returned and the confidence field is 0.70. -/
theorem C3_witness :
    (process_request (mkEnv (.ok 200 "hi") (.ok 200 [])
        (.ok 200 { response := some "Answer", confidence := some (7/10) }))
      { query := "hi" }).response = "Answer" ∧
    (process_request (mkEnv (.ok 200 "hi") (.ok 200 [])
        (.ok 200 { response := some "Answer", confidence := some (7/10) }))
      { query := "hi" }).confidence = 7/10 := by
  have h := C3_confidence_floor (mkEnv (.ok 200 "hi") (.ok 200 [])
      (.ok 200 { response := some "Answer", confidence := some (7/10) }))
    { query := "hi" } "hi" "Answer" (7/10) rfl rfl rfl
  exact ⟨h.2.2 rfl, h.2.1⟩

/-- C4 counterexample: with a non-empty news list and a synthesis call that
fails with an exception, the substituted confidence 0.0 is returned with no
boost, so the final confidence is 0, not 0.10 as the claim states. -/
theorem C4_counterexample :
    (synthesize_response (.exn "connection refused")
        [{ title := some "n" }] []).confidence = some (0 : ℚ) ∧
    ((0 : ℚ) ≠ 1/10) := ⟨rfl, by norm_num⟩

/-- C4 (amended): the +0.10 boost (capped at 0.95) is applied only when the
synthesis call returns HTTP 200; on an exception or a non-200 status the
substituted confidence 0.0 is returned without boost even when the news or
earnings list is non-empty. -/
theorem C4_boost_requires_success (news : List NewsItem) (earnings : List EarningsItem)
    (body : SynthJson) (m : String) (s : Nat)
    (hs : s ≠ 200) (h : news ≠ [] ∨ earnings ≠ []) :
    (synthesize_response (.ok 200 body) news earnings).confidence
      = some (min (95/100 : ℚ) (body.confidence.getD (1/2) + 1/10)) ∧
    (synthesize_response (.exn m) news earnings).confidence = some 0 ∧
    (synthesize_response (.ok s body) news earnings).confidence = some 0 := by
  refine ⟨?_, rfl, ?_⟩
  · rw [synthesize_response_boost body news earnings h]
  · simp [synthesize_response, hs]

/-- C4 witness: a failed synthesis call next to one news item yields
confidence 0 both for the exception path and for a 500 status. -/
theorem C4_witness :
    (synthesize_response (.exn "boom") [{ title := some "n" }] []).confidence
        = some (0 : ℚ) ∧
    (synthesize_response (.ok 500 { response := some "x", confidence := some (1/2) })
        [{ title := some "n" }] []).confidence = some (0 : ℚ) := by
  have h := C4_boost_requires_success [{ title := some "n" }] []
    { response := some "x", confidence := some (1/2) } "boom" 500 (by norm_num)
    (Or.inl (by simp))
  exact ⟨h.2.1, h.2.2⟩

/-- C5: the fused context list has length
len(retrieved) + min(3, len(news)) + min(3, len(earnings)) and consists of
the retrieved chunks in their given order, then the at-most-3 news chunks
tagged `scraped_news` in their given order, then the at-most-3 earnings
chunks tagged `scraped_earnings` in their given order. -/
theorem C5_fuse_shape (context : List Chunk) (news : List NewsItem)
    (earnings : List EarningsItem) :
    (fuse context news earnings).length
      = context.length + min 3 news.length + min 3 earnings.length ∧
    fuse context news earnings
      = context ++ (news.take 3).map newsChunk ++ (earnings.take 3).map earningsChunk ∧
    (∀ c ∈ (news.take 3).map newsChunk, c.source = "scraped_news") ∧
    (∀ c ∈ (earnings.take 3).map earningsChunk, c.source = "scraped_earnings") := by
  have hfuse : fuse context news earnings
      = context ++ (news.take 3).map newsChunk ++ (earnings.take 3).map earningsChunk := by
    unfold fuse
    cases news <;> cases earnings <;> simp [List.append_assoc]
  refine ⟨?_, hfuse, ?_, ?_⟩
  · rw [hfuse]
    simp [List.length_append, List.length_map, List.length_take]
    omega
  · rintro c hc
    simp only [List.mem_map] at hc
    obtain ⟨n, _, rfl⟩ := hc
    rfl
  · rintro c hc
    simp only [List.mem_map] at hc
    obtain ⟨e, _, rfl⟩ := hc
    rfl

/-- C5 witness: one retrieved chunk, four news items and one earnings item
fuse to a list of length 1 + 3 + 1. -/
theorem C5_witness :
    (fuse [{ text := "c1", source := "doc" }]
        [{ title := some "a" }, { title := some "b" },
         { title := some "c" }, { title := some "d" }]
        [{ company := some "X" }]).length = 5 := by
  have h := (C5_fuse_shape [{ text := "c1", source := "doc" }]
      [{ title := some "a" }, { title := some "b" },
       { title := some "c" }, { title := some "d" }]
      [{ company := some "X" }]).1
  rw [h]; decide

/-- A whitespace character is unchanged by `Char.toLower`, hence stays
whitespace. -/
theorem toLower_whitespace (c : Char) (h : c.isWhitespace = true) :
    (Char.toLower c).isWhitespace = true := by
  simp only [Char.isWhitespace, Bool.or_eq_true, decide_eq_true_eq] at h
  rcases h with ((h | h) | h) | h <;> rw [h] <;> decide

/-- Every character of the lowercased form of a whitespace-only string is
whitespace. -/
theorem lowerChars_whitespace (q : String)
    (hw : ∀ c ∈ q.toList, c.isWhitespace = true) :
    ∀ c ∈ lowerChars q, c.isWhitespace = true := by
  intro c hc
  simp only [lowerChars, List.mem_map] at hc
  obtain ⟨a, ha, rfl⟩ := hc
  exact toLower_whitespace a (hw a ha)

/-- A keyword containing a non-whitespace character never occurs in the
lowercased form of a whitespace-only string. -/
theorem keyword_not_in_whitespace (q : String)
    (hw : ∀ c ∈ q.toList, c.isWhitespace = true) (k : String)
    (hk : k.toList.any (fun c => !c.isWhitespace) = true) :
    ¬ (k.toList <:+: lowerChars q) := by
  intro hinf
  rw [List.any_eq_true] at hk
  obtain ⟨c, hc, hcw⟩ := hk
  have hmem : c ∈ lowerChars q := hinf.subset hc
  rw [lowerChars_whitespace q hw c hmem] at hcw
  exact absurd hcw (by decide)

/-- C6: the news classifier returns true iff the lowercased query contains a
news keyword as a substring, and likewise for earnings keywords; both flags
hold simultaneously for "latest results"; and for whitespace-only text (the
empty string included) both classifiers are false. -/
theorem C6_classifiers (q : String) :
    (is_news_query q = true ↔ ∃ k ∈ news_keywords, k.toList <:+: lowerChars q) ∧
    (is_earnings_query q = true ↔ ∃ k ∈ earnings_keywords, k.toList <:+: lowerChars q) ∧
    (is_news_query "latest results" = true ∧ is_earnings_query "latest results" = true) ∧
    ((∀ c ∈ q.toList, c.isWhitespace = true) →
      is_news_query q = false ∧ is_earnings_query q = false) := by
  refine ⟨?_, ?_, ⟨by decide, by decide⟩, fun hw => ⟨?_, ?_⟩⟩
  · simp [is_news_query, List.any_eq_true]
  · simp [is_earnings_query, List.any_eq_true]
  · apply Bool.eq_false_iff.mpr
    intro htrue
    rw [is_news_query, List.any_eq_true] at htrue
    obtain ⟨k, hk, hdec⟩ := htrue
    rw [decide_eq_true_eq] at hdec
    revert hdec
    apply keyword_not_in_whitespace q hw k
    fin_cases hk <;> decide
  · apply Bool.eq_false_iff.mpr
    intro htrue
    rw [is_earnings_query, List.any_eq_true] at htrue
    obtain ⟨k, hk, hdec⟩ := htrue
    rw [decide_eq_true_eq] at hdec
    revert hdec
    apply keyword_not_in_whitespace q hw k
    fin_cases hk <;> decide

/-- C6 witness: a single-space query classifies as neither news nor earnings,
and "latest results" classifies as both. -/
theorem C6_witness :
    is_news_query " " = false ∧ is_earnings_query " " = false ∧
    is_news_query "latest results" = true ∧
    is_earnings_query "latest results" = true := by
  have h := C6_classifiers " "
  exact ⟨(h.2.2.2 (by decide)).1, (h.2.2.2 (by decide)).2,
    h.2.2.1.1, h.2.2.1.2⟩

/-- On a 200 synthesis response whose body carries both keys, the result of
`synthesize_response` still carries both keys (boosted or not). -/
theorem synthesize_response_fields (body : SynthJson) (news : List NewsItem)
    (earnings : List EarningsItem) (rt : String) (c : ℚ)
    (hr : body.response = some rt) (hc : body.confidence = some c) :
    (synthesize_response (.ok 200 body) news earnings).response = some rt ∧
    ∃ c', (synthesize_response (.ok 200 body) news earnings).confidence = some c' := by
  by_cases hne : news ≠ [] ∨ earnings ≠ []
  · rw [synthesize_response_boost body news earnings hne]
    exact ⟨hr, _, rfl⟩
  · push_neg at hne
    rw [hne.1, hne.2, synthesize_response_nodata]
    exact ⟨hr, c, hc⟩

/-- C7 counterexample: a network/timeout failure of the speech-to-text call
propagates out of `process_voice_input` (which has no exception handler) to
the top-level handler, so the pipeline returns an error-status response, not
a success-status one with the substituted text as the claim states. -/
theorem C7_counterexample :
    (process_request (mkEnv (.exn "timeout") (.ok 200 [])
        (.ok 200 { response := some "A", confidence := some 1 }))
      { query := "q", mode := "voice", audio_file := some "a.wav" }).status
      = "error" := rfl

/-- C7 (amended): when the speech-to-text call returns a non-2xx status,
`process_voice_input` substitutes the literal text "Error processing voice
input" and, when the synthesis body is well-formed, the pipeline completes
with a success-status response; when the speech-to-text call raises
(network/timeout), the exception propagates and the pipeline returns an
error-status response embedding the message. -/
theorem C7_voice_degrade (env : Env) (req : OrchestratorRequest)
    (s : Nat) (t m : String) (body : SynthJson) (rt : String) (c : ℚ)
    (hmode : req.mode = "voice") (haudio : truthyOptStr req.audio_file = true) :
    (s ≠ 200 → process_voice_input (.ok s t) = .ok "Error processing voice input") ∧
    process_voice_input (.exn m) = .error m ∧
    (env.stt = .exn m →
      (process_request env req).status = "error" ∧
      (process_request env req).response = "Error processing request: " ++ m) ∧
    (env.stt = .ok s t → s ≠ 200 → env.synth = .ok 200 body →
      body.response = some rt → body.confidence = some c →
      (process_request env req).status = "success") := by
  refine ⟨fun hs => ?_, rfl, fun hstt => ?_, fun hstt hs hsy hr hc => ?_⟩
  · simp [process_voice_input, hs]
  · have hq : query_text_of env req = .error m := by
      simp [query_text_of, hmode, haudio, hstt, process_voice_input]
    rw [process_request_query_error env req m hq]
    exact ⟨rfl, rfl⟩
  · have hq : query_text_of env req = .ok "Error processing voice input" := by
      simp [query_text_of, hmode, haudio, hstt, process_voice_input, hs]
    obtain ⟨hr', c', hc'⟩ := synthesize_response_fields body
      (news_data_of env "Error processing voice input")
      (earnings_data_of env "Error processing voice input") rt c hr hc
    rw [← hsy] at hr' hc'
    rw [process_request_success_shape env req "Error processing voice input" rt c' hq hr' hc']
    split <;> rfl

/-- C7 witness: a 500 status from the speech-to-text call still ends in a
success-status response. -/
theorem C7_witness :
    (process_request (mkEnv (.ok 500 "x") (.ok 200 [])
        (.ok 200 { response := some "A", confidence := some (9/10) }))
      { query := "q", mode := "voice", audio_file := some "a.wav" }).status
      = "success" := by
  have h := C7_voice_degrade (mkEnv (.ok 500 "x") (.ok 200 [])
      (.ok 200 { response := some "A", confidence := some (9/10) }))
    { query := "q", mode := "voice", audio_file := some "a.wav" }
    500 "x" "boom" { response := some "A", confidence := some (9/10) } "A" (9/10)
    rfl rfl
  exact h.2.2.2 rfl (by norm_num) rfl rfl rfl

/-- C8 counterexample: on a non-success HTTP status the substituted response
text is "Error generating response", not "Error connecting to language
agent": the two failure kinds do not take the same degrade path. -/
theorem C8_counterexample :
    (synthesize_response (.ok 500 { response := some "r", confidence := some 1 })
        [] []).response = some "Error generating response" ∧
    "Error generating response" ≠ "Error connecting to language agent" :=
  ⟨rfl, by decide⟩

/-- C8 (amended): when the synthesis call raises (exception/timeout) the
substituted result is exactly
`\x7bresponse: "Error connecting to language agent", confidence: 0.0\x7d`;
when it returns a non-success status the substituted result is exactly
`\x7bresponse: "Error generating response", confidence: 0.0\x7d`; in the
exception case (and symmetrically the other) the pipeline continues to a
success-status response. -/
theorem C8_synthesis_degrade (env : Env) (req : OrchestratorRequest)
    (news : List NewsItem) (earnings : List EarningsItem) (body : SynthJson)
    (m qt : String) (s : Nat) (hs : s ≠ 200) :
    synthesize_response (.exn m) news earnings
      = { response := some "Error connecting to language agent",
          confidence := some 0 } ∧
    synthesize_response (.ok s body) news earnings
      = { response := some "Error generating response", confidence := some 0 } ∧
    (env.synth = .exn m → query_text_of env req = .ok qt →
      (process_request env req).status = "success") := by
  refine ⟨rfl, by simp [synthesize_response, hs], fun hsy hq => ?_⟩
  have hr : (synthesize_response env.synth (news_data_of env qt)
      (earnings_data_of env qt)).response
        = some "Error connecting to language agent" := by rw [hsy]; rfl
  have hc : (synthesize_response env.synth (news_data_of env qt)
      (earnings_data_of env qt)).confidence = some 0 := by rw [hsy]; rfl
  rw [process_request_success_shape env req qt _ 0 hq hr hc]
  split <;> rfl

/-- C8 witness: with a synthesis exception and a plain text request the
substituted dictionary is returned and the run ends with status success. -/
theorem C8_witness :
    synthesize_response (.exn "boom") [] []
      = { response := some "Error connecting to language agent",
          confidence := some 0 } ∧
    (process_request (mkEnv (.ok 200 "x") (.ok 200 []) (.exn "boom"))
        { query := "hello" }).status = "success" := by
  have h := C8_synthesis_degrade (mkEnv (.ok 200 "x") (.ok 200 []) (.exn "boom"))
    { query := "hello" } [] [] { response := some "r" } "boom" "hello" 500
    (by norm_num)
  exact ⟨h.1, h.2.2 rfl rfl⟩

/-- C9 counterexample: with mode "voice" and no audio handle the pipeline
keeps the request's query field as the query text: for query "news" the query
text is "news" and the news classifier fires, contradicting the claim's
"empty string as query text, both flags false". -/
theorem C9_counterexample :
    query_text_of (mkEnv (.ok 200 "x") (.ok 200 [])
        (.ok 200 { response := some "A", confidence := some 1 }))
      { query := "news", mode := "voice", audio_file := none } = .ok "news" ∧
    is_news_query "news" = true := ⟨rfl, by decide⟩

/-- C9 (amended): with mode "voice" and an absent (or empty, hence falsy)
audio handle the query text is the request's query field unchanged; when that
field is the empty string both classifier flags are false and both fetch
lists are empty. -/
theorem C9_voice_no_audio (env : Env) (req : OrchestratorRequest)
    (_hmode : req.mode = "voice") (haudio : truthyOptStr req.audio_file = false) :
    query_text_of env req = .ok req.query ∧
    (req.query = "" →
      is_news_query req.query = false ∧ is_earnings_query req.query = false ∧
      news_data_of env req.query = [] ∧ earnings_data_of env req.query = []) := by
  have hn : is_news_query "" = false := by decide
  have he : is_earnings_query "" = false := by decide
  constructor
  · simp [query_text_of, haudio]
  · rintro hq
    rw [hq]
    exact ⟨hn, he, by simp [news_data_of, hn], by simp [earnings_data_of, he]⟩

/-- C9 witness: a voice request with no audio handle and empty query keeps
the empty query text, both classifiers false. -/
theorem C9_witness :
    query_text_of (mkEnv (.ok 200 "x") (.ok 200 [])
        (.ok 200 { response := some "A", confidence := some 1 }))
      { query := "", mode := "voice", audio_file := none } = .ok "" ∧
    is_news_query "" = false ∧ is_earnings_query "" = false := by
  have h := C9_voice_no_audio (mkEnv (.ok 200 "x") (.ok 200 [])
      (.ok 200 { response := some "A", confidence := some 1 }))
    { query := "", mode := "voice", audio_file := none } rfl rfl
  exact ⟨h.1, (h.2 rfl).1, (h.2 rfl).2.1⟩

/-- C10: on a 200 synthesis response whose JSON omits the confidence key,
with the news or earnings list non-empty, the boost uses the default base
0.5, so the returned confidence is min(0.95, 0.5 + 0.1) = 0.6. -/
theorem C10_default_confidence (news : List NewsItem) (earnings : List EarningsItem)
    (body : SynthJson) (hc : body.confidence = none)
    (h : news ≠ [] ∨ earnings ≠ []) :
    (synthesize_response (.ok 200 body) news earnings).confidence
      = some (3/5 : ℚ) := by
  rw [synthesize_response_boost body news earnings h]
  simp only [hc, Option.getD_none]
  congr 1
  rw [min_eq_right (by norm_num)]
  norm_num

/-- C10 witness: a body with no confidence key next to one news item yields
confidence 0.6. -/
theorem C10_witness :
    (synthesize_response (.ok 200 { response := some "ok" })
        [{ title := some "n" }] []).confidence = some (3/5 : ℚ) :=
  C10_default_confidence [{ title := some "n" }] [] { response := some "ok" } rfl
    (Or.inl (by simp))

end FinanceAssistant
